import Mathlib

/-!
Verification of `eventtracer` (shish/eventtracer-py)

A shallow embedding of `src/eventtracer/__init__.py` and proofs about it.

Modelling conventions:
* Python values that may flow into a trace record are modelled by `JValue`,
  with a dedicated constructor `unser` for values that `json.dumps` rejects
  (a `TypeError`, the spec's SerializationError).
* Python `dict`s (insertion-ordered, key-overwrite-in-place) are modelled as
  association lists `List (String × JValue)` with the update `setKey`.
* `json.dumps` with its default separators `", "` / `": "` is modelled by
  `dumpJ`, returning `none` when any `unser` value occurs.
* Numbers are modelled as `Int` (the timestamps and durations used by the
  library are integer microsecond counts).
* The file system is modelled as the file's content, a `String`; opening in
  append mode on a fresh path corresponds to the empty string.
* Exceptions are modelled by an `Option Err` result paired with the state in
  which the exception leaves the world (mutations before the raise persist).
-/

set_option autoImplicit false

/-- A JSON-ish Python value. `unser` stands for any Python object that
`json.dumps` cannot serialize. -/
inductive JValue where
  | null : JValue
  | bool : Bool → JValue
  | num : Int → JValue
  | str : String → JValue
  | arr : List JValue → JValue
  | obj : List (String × JValue) → JValue
  | unser : JValue

/-- The opening-brace character, kept out of string literals. -/
def lbrace : Char := Char.ofNat 123

/-- The closing-brace character, kept out of string literals. -/
def rbrace : Char := Char.ofNat 125

/-- JSON string escaping for one character, as `json.dumps` performs it. -/
def escChar (c : Char) : String :=
  if c = '"' then "\\\""
  else if c = '\\' then "\\\\"
  else if c = '\n' then "\\n"
  else if c = '\r' then "\\r"
  else if c = '\t' then "\\t"
  else if c = (Char.ofNat 8) then "\\b"
  else if c = (Char.ofNat 12) then "\\f"
  else if c.toNat < 32 then
    "\\u00" ++ String.mk [Nat.digitChar (c.toNat / 16), Nat.digitChar (c.toNat % 16)]
  else String.singleton c

/-- JSON string encoding: quote and escape. -/
def escString (s : String) : String :=
  "\"" ++ String.join (s.data.map escChar) ++ "\""

mutual

/-- Model of `json.dumps` on a value, with Python's default separators; `none` models
the `TypeError` raised on an unserializable value. -/
def dumpJ : JValue → Option String
  | .null => some "null"
  | .bool b => some (if b then "true" else "false")
  | .num n => some (toString n)
  | .str s => some (escString s)
  | .arr xs => (dumpJList xs).map (fun b => "[" ++ b ++ "]")
  | .obj kvs => (dumpJObj kvs).map (fun b => String.singleton lbrace ++ b ++ String.singleton rbrace)
  | .unser => none

/-- Elements of a JSON array, joined by `", "`. -/
def dumpJList : List JValue → Option String
  | [] => some ""
  | [x] => dumpJ x
  | x :: y :: rest => do
      let hd ← dumpJ x
      let tl ← dumpJList (y :: rest)
      pure (hd ++ ", " ++ tl)

/-- Members of a JSON object, `"key": value` joined by `", "`. -/
def dumpJObj : List (String × JValue) → Option String
  | [] => some ""
  | [(k, v)] => (dumpJ v).map (fun s => escString k ++ ": " ++ s)
  | (k, v) :: p :: rest => do
      let hd ← dumpJ v
      let tl ← dumpJObj (p :: rest)
      pure (escString k ++ ": " ++ hd ++ ", " ++ tl)

end

/-- A trace record: the Python dict built by `_log_event`, in insertion
order. -/
abbrev Rec : Type := List (String × JValue)

/-- Model of `json.dumps` on a record (a dict). -/
def dumpRecord (r : Rec) : Option String := dumpJ (.obj r)

/-- Model of `json.dumps` on a list of records (what `flush` serializes). -/
def dumpRecList (rs : List Rec) : Option String := dumpJ (.arr (rs.map .obj))

/-- Python dict assignment `d[k] = v`: overwrite in place when the key
exists, else append at the end. -/
def setKey (d : Rec) (k : String) (v : JValue) : Rec :=
  if d.any (fun p => p.1 = k) then
    d.map (fun p => if p.1 = k then (k, v) else p)
  else d ++ [(k, v)]

/-- Lookup of a key in a record. -/
def rlookup (r : Rec) (k : String) : Option JValue :=
  match r with
  | [] => none
  | (k', v) :: rest => if k' = k then some v else rlookup rest k

/-- The keys of a record, in order. -/
def recKeys (r : Rec) : List String := r.map Prod.fst

/-- The loop of `_log_event`: fold the `optionals` dict over the base dict,
skipping entries whose value is `None`. -/
def applyOptionals (base : Rec) (optionals : List (String × Option JValue)) : Rec :=
  optionals.foldl
    (fun d kv => match kv.2 with
      | none => d
      | some v => setKey d kv.1 v)
    base

/-- The record `_log_event` builds: base fields `ph`, `ts`, `pid`, `tid`
followed by the non-`None` optionals. -/
def buildRecord (ph : String) (now pid tid : Int) (optionals : List (String × Option JValue)) : Rec :=
  applyOptionals
    [("ph", .str ph), ("ts", .num now), ("pid", .num pid), ("tid", .num tid)]
    optionals

/-- A `str | None` Python argument as an optional JSON value. -/
def optStr (s : Option String) : Option JValue := s.map .str

/-- A `float | None` Python argument as an optional JSON value. -/
def optNum (n : Option Int) : Option JValue := n.map .num

/-- Python `x if x is not None else null`: how `clock_sync`'s sub-fields reach the
`args` dict literal (they are placed there unconditionally). -/
def orNull (v : Option JValue) : JValue := v.getD .null

/-- One call to a public emission method, with the parameters the caller
supplied (`none` = parameter omitted). Field types follow the Python
signatures: `begin`'s `name` is required, the rest optional. -/
inductive OpCall where
  | begin' (name : String) (args : Option JValue) (cat : Option String)
  | end' (name : Option String) (args : Option JValue) (cat : Option String)
  | complete (start duration : Int) (name : Option String) (args : Option JValue) (cat : Option String)
  | instant (name : Option String) (scope : Option String) (args : Option JValue) (cat : Option String)
  | counter (name : Option String) (args : Option JValue) (cat : Option String)
  | async_start (name : Option String) (id : Option String) (args : Option JValue) (cat : Option String)
  | async_instant (name : Option String) (id : Option String) (args : Option JValue) (cat : Option String)
  | async_end (name : Option String) (id : Option String) (args : Option JValue) (cat : Option String)
  | flow_start (name : Option String) (id : Option String) (args : Option JValue) (cat : Option String)
  | flow_instant (name : Option String) (id : Option String) (args : Option JValue) (cat : Option String)
  | flow_end (name : Option String) (id : Option String) (args : Option JValue) (cat : Option String)
  | object_created (name : Option String) (id : Option String) (args : Option JValue) (cat : Option String) (scope : Option String)
  | object_snapshot (name : Option String) (id : Option String) (args : Option JValue) (cat : Option String) (scope : Option String)
  | object_destroyed (name : Option String) (id : Option String) (args : Option JValue) (cat : Option String) (scope : Option String)
  | metadata (name : Option String) (args : Option JValue)
  | mark (name : Option String) (args : Option JValue) (cat : Option String)
  | clock_sync (name : Option String) (sync_id : Option String) (issue_ts : Option Int)
  | context_enter (name : Option String) (id : Option String)
  | context_leave (name : Option String) (id : Option String)

/-- The phase code each method passes to `_log_event`. -/
def phOf : OpCall → String
  | .begin' .. => "B"
  | .end' .. => "E"
  | .complete .. => "X"
  | .instant .. => "I"
  | .counter .. => "C"
  | .async_start .. => "b"
  | .async_instant .. => "n"
  | .async_end .. => "e"
  | .flow_start .. => "s"
  | .flow_instant .. => "t"
  | .flow_end .. => "f"
  | .object_created .. => "N"
  | .object_snapshot .. => "O"
  | .object_destroyed .. => "D"
  | .metadata .. => "M"
  | .mark .. => "R"
  | .clock_sync .. => "c"
  | .context_enter .. => "("
  | .context_leave .. => ")"

/-- The `optionals` dict each method passes to `_log_event`, in the source's
literal order. `clock_sync` builds its `args` dict unconditionally, with
`None` sub-fields kept as `null` values. -/
def optionalsOf : OpCall → List (String × Option JValue)
  | .begin' name args cat => [("name", some (.str name)), ("cat", optStr cat), ("args", args)]
  | .end' name args cat => [("name", optStr name), ("cat", optStr cat), ("args", args)]
  | .complete start duration name args cat =>
      [("ts", some (.num start)), ("dur", some (.num duration)),
       ("name", optStr name), ("cat", optStr cat), ("args", args)]
  | .instant name scope args cat =>
      [("name", optStr name), ("cat", optStr cat), ("scope", optStr scope), ("args", args)]
  | .counter name args cat => [("name", optStr name), ("cat", optStr cat), ("args", args)]
  | .async_start name id args cat =>
      [("name", optStr name), ("id", optStr id), ("cat", optStr cat), ("args", args)]
  | .async_instant name id args cat =>
      [("name", optStr name), ("id", optStr id), ("cat", optStr cat), ("args", args)]
  | .async_end name id args cat =>
      [("name", optStr name), ("id", optStr id), ("cat", optStr cat), ("args", args)]
  | .flow_start name id args cat =>
      [("name", optStr name), ("id", optStr id), ("cat", optStr cat), ("args", args)]
  | .flow_instant name id args cat =>
      [("name", optStr name), ("id", optStr id), ("cat", optStr cat), ("args", args)]
  | .flow_end name id args cat =>
      [("name", optStr name), ("id", optStr id), ("cat", optStr cat), ("args", args)]
  | .object_created name id args cat scope =>
      [("name", optStr name), ("id", optStr id), ("cat", optStr cat), ("args", args), ("scope", optStr scope)]
  | .object_snapshot name id args cat scope =>
      [("name", optStr name), ("id", optStr id), ("cat", optStr cat), ("args", args), ("scope", optStr scope)]
  | .object_destroyed name id args cat scope =>
      [("name", optStr name), ("id", optStr id), ("cat", optStr cat), ("args", args), ("scope", optStr scope)]
  | .metadata name args => [("name", optStr name), ("args", args)]
  | .mark name args cat => [("name", optStr name), ("cat", optStr cat), ("args", args)]
  | .clock_sync name sync_id issue_ts =>
      [("name", optStr name),
       ("args", some (.obj [("sync_id", orNull (optStr sync_id)), ("issue_ts", orNull (optNum issue_ts))]))]
  | .context_enter name id => [("name", optStr name), ("id", optStr id)]
  | .context_leave name id => [("name", optStr name), ("id", optStr id)]

/-- The full record a call commits, given the wall clock and identity
values at emission time. -/
def emitRecord (c : OpCall) (now pid tid : Int) : Rec :=
  buildRecord (phOf c) now pid tid (optionalsOf c)

/-- The error taxonomy: `serialization` models `json.dumps`'s `TypeError`
(the spec's SerializationError), `usage` the `Exception` raised by `flush`
on an unbuffered stream (UsageError), `keyError` Python's `KeyError`, and
`resource` an I/O failure (ResourceError). -/
inductive Err where
  | serialization : Err
  | usage : Err
  | keyError : Err
  | resource : Err
  deriving Repr, DecidableEq

/-- The clock and identity values observed during one call:
`int(time() * 1000000)`, `getpid()`, `threading.get_ident()`. -/
structure Env where
  now : Int
  pid : Int
  tid : Int

/-- The sink: `self.buffer` (a list) or `self.fp` (modelled by the content
of the file it appends to). -/
inductive Sink where
  | buffered (buf : List Rec) : Sink
  | streaming (file : String) : Sink

/-- The mutable state of an `EventTracer` object. -/
structure TracerState where
  sink : Sink
  depths : List (Int × Int)

/-- Python dict lookup in `self.depths` (`None` when the key is absent). -/
def dlookup (d : List (Int × Int)) (p : Int) : Option Int :=
  match d with
  | [] => none
  | (q, n) :: rest => if q = p then some n else dlookup rest p

/-- Python dict assignment `self.depths[p] = n`. -/
def dset (d : List (Int × Int)) (p n : Int) : List (Int × Int) :=
  if d.any (fun q => q.1 = p) then d.map (fun q => if q.1 = p then (p, n) else q)
  else d ++ [(p, n)]

/-- The streaming half of `EventTracer.__init__`: open the file in append
mode and, if it is empty, write the array-opening token and flush. -/
def streamInit (file : String) : String :=
  if file = "" then file ++ "[\n" else file

/-- A streaming commit: `self.fp.write(json.dumps(d) + ",\n")`. The
argument of `write` is evaluated first, so a serialization failure leaves
the file untouched. -/
def streamCommit (d : Rec) (file : String) : Option Err × String :=
  match dumpRecord d with
  | none => (some .serialization, file)
  | some s => (none, file ++ s ++ ",\n")

/-- Model of `_log_event`: build the record, then commit it to the active sink. -/
def logEvent (env : Env) (ph : String) (optionals : List (String × Option JValue))
    (s : TracerState) : Option Err × TracerState :=
  let d := buildRecord ph env.now env.pid env.tid optionals
  match s.sink with
  | .streaming file =>
      let (e, file') := streamCommit d file
      (e, { s with sink := .streaming file' })
  | .buffered buf => (none, { s with sink := .buffered (buf ++ [d]) })

/-- Shorthand for `_log_event` invoked with the phase and optionals of a given call. -/
def emitOp (env : Env) (c : OpCall) (s : TracerState) : Option Err × TracerState :=
  logEvent env (phOf c) (optionalsOf c) s

namespace ET

/-- A fresh buffered tracer: `EventTracer()`. -/
def newBuffered : TracerState := { sink := .buffered [], depths := [] }

/-- Model of `EventTracer.begin`: log a `"B"` event, then initialize the depth entry
to 0 when absent and increment it (`+= 1` raises `KeyError` when the key is
missing, which cannot happen after the initialization step). -/
def begin' (env : Env) (name : String) (args : Option JValue) (cat : Option String)
    (s : TracerState) : Option Err × TracerState :=
  match emitOp env (.begin' name args cat) s with
  | (some e, s') => (some e, s')
  | (none, s') =>
      let d0 := if dlookup s'.depths env.pid = none then dset s'.depths env.pid 0 else s'.depths
      match dlookup d0 env.pid with
      | some n => (none, { s' with depths := dset d0 env.pid (n + 1) })
      | none => (some .keyError, { s' with depths := d0 })

/-- Model of `EventTracer.end`: log an `"E"` event, then `self.depths[getpid()] -= 1`,
which raises `KeyError` when the current pid has no entry (the record has
already been committed by then). -/
def end' (env : Env) (name : Option String) (args : Option JValue) (cat : Option String)
    (s : TracerState) : Option Err × TracerState :=
  match emitOp env (.end' name args cat) s with
  | (some e, s') => (some e, s')
  | (none, s') =>
      match dlookup s'.depths env.pid with
      | some n => (none, { s' with depths := dset s'.depths env.pid (n - 1) })
      | none => (some .keyError, s')

/-- The `while self.depths[p] > 0: self.end()` loop of `clear`, run with
enough fuel. Each iteration re-reads the counter, exactly as the loop
guard does; `end'` never raises here because the loop only runs while the
depth entry is present and the synthetic end record (base fields only) is
always serializable. -/
def clearGo (env : Env) : Nat → TracerState → TracerState
  | 0, s => s
  | fuel + 1, s =>
      match dlookup s.depths env.pid with
      | some n => if 0 < n then clearGo env fuel (end' env none none none s).2 else s
      | none => s

/-- Model of `EventTracer.clear`: a no-op when the current pid has no depth entry;
otherwise emit synthetic end events while the counter is positive. The
fuel `n.toNat` is exact because each iteration decrements the counter by
one. -/
def clear (env : Env) (s : TracerState) : TracerState :=
  match dlookup s.depths env.pid with
  | none => s
  | some n => clearGo env n.toNat s

/-- Model of `EventTracer.complete(start, duration, name, args, cat)`. -/
def complete (env : Env) (start duration : Int) (name : Option String)
    (args : Option JValue) (cat : Option String) (s : TracerState) :
    Option Err × TracerState :=
  emitOp env (.complete start duration name args cat) s

/-- Model of `EventTracer.flush(filename)`: raise on an unbuffered stream; serialize
the whole buffer; swap in a fresh empty buffer; then open the target and
append, stripping the leading `[` when the target is non-empty and
replacing the trailing `]` by `,\n`. `openOk` models whether opening and
writing the target succeeds; on failure the buffer has already been
emptied. Returns the raised error (if any), the tracer state, and the
target file's content. -/
def flush (s : TracerState) (openOk : Bool) (target : String) :
    Option Err × TracerState × String :=
  match s.sink with
  | .streaming _ => (some .usage, s, target)
  | .buffered buf =>
      match dumpRecList buf with
      | none => (some .serialization, s, target)
      | some encoded =>
          let s' : TracerState := { s with sink := .buffered [] }
          if openOk then
            let enc1 := if target ≠ "" then encoded.drop 1 else encoded
            let enc2 := enc1.dropRight 1 ++ ",\n"
            (none, s', target ++ enc2)
          else (some .resource, s', target)

end ET

/-- The finalization step from the file-format lifecycle (performed by
consumers, e.g. the test suite): drop the trailing `,\n` and append `\n]`. -/
def finalize (file : String) : String := file.dropRight 2 ++ "\n]"

/-! Section: A JSON parser, used to state "the file parses as a JSON array". -/

/-- Skip JSON whitespace. -/
def skipWs : List Char → List Char
  | [] => []
  | c :: rest => if c = ' ' ∨ c = '\n' ∨ c = '\t' ∨ c = '\r' then skipWs rest else c :: rest

/-- The value of a hexadecimal digit. -/
def hexVal (c : Char) : Option Nat :=
  if '0' ≤ c ∧ c ≤ '9' then some (c.toNat - 48)
  else if 'a' ≤ c ∧ c ≤ 'f' then some (c.toNat - 87)
  else if 'A' ≤ c ∧ c ≤ 'F' then some (c.toNat - 55)
  else none

/-- Parse the remainder of a JSON string (the opening quote already
consumed), decoding escapes. -/
def parseStringGo : Nat → List Char → Option (String × List Char)
  | 0, _ => none
  | _, [] => none
  | fuel + 1, c :: rest =>
      if c = '"' then some ("", rest)
      else if c = '\\' then
        match rest with
        | [] => none
        | e :: rest' =>
            let dec : Option (Char × List Char) :=
              if e = '"' then some ('"', rest')
              else if e = '\\' then some ('\\', rest')
              else if e = '/' then some ('/', rest')
              else if e = 'n' then some ('\n', rest')
              else if e = 't' then some ('\t', rest')
              else if e = 'r' then some ('\r', rest')
              else if e = 'b' then some (Char.ofNat 8, rest')
              else if e = 'f' then some (Char.ofNat 12, rest')
              else if e = 'u' then
                match rest' with
                | h1 :: h2 :: h3 :: h4 :: rest2 =>
                    match hexVal h1, hexVal h2, hexVal h3, hexVal h4 with
                    | some a, some b, some c2, some d2 =>
                        some (Char.ofNat (((a * 16 + b) * 16 + c2) * 16 + d2), rest2)
                    | _, _, _, _ => none
                | _ => none
              else none
            match dec with
            | some (ch, r2) =>
                (parseStringGo fuel r2).map (fun p => (String.singleton ch ++ p.1, p.2))
            | none => none
      else (parseStringGo fuel rest).map (fun p => (String.singleton c ++ p.1, p.2))

/-- Split off a maximal run of decimal digits. -/
def takeDigits : List Char → List Char × List Char
  | [] => ([], [])
  | c :: rest =>
      if c.isDigit then
        let (ds, r) := takeDigits rest
        (c :: ds, r)
      else ([], c :: rest)

/-- The numeric value of a digit run. -/
def digitsVal (ds : List Char) : Nat :=
  ds.foldl (fun acc c => acc * 10 + (c.toNat - 48)) 0

mutual

/-- Parse one JSON value (fuel-indexed recursive descent). -/
def parseVal : Nat → List Char → Option (JValue × List Char)
  | 0, _ => none
  | fuel + 1, cs =>
      match skipWs cs with
      | [] => none
      | c :: rest =>
          if c = 'n' then
            match rest with
            | 'u' :: 'l' :: 'l' :: r => some (.null, r)
            | _ => none
          else if c = 't' then
            match rest with
            | 'r' :: 'u' :: 'e' :: r => some (.bool true, r)
            | _ => none
          else if c = 'f' then
            match rest with
            | 'a' :: 'l' :: 's' :: 'e' :: r => some (.bool false, r)
            | _ => none
          else if c = '"' then
            (parseStringGo (fuel + 1) rest).map (fun p => (JValue.str p.1, p.2))
          else if c = '-' then
            match takeDigits rest with
            | ([], _) => none
            | (ds, r) => some (.num (-(digitsVal ds : Int)), r)
          else if c.isDigit then
            match takeDigits (c :: rest) with
            | (ds, r) => some (.num (digitsVal ds), r)
          else if c = '[' then
            match skipWs rest with
            | ']' :: r => some (.arr [], r)
            | cs2 => (parseElems fuel cs2).map (fun p => (JValue.arr p.1, p.2))
          else if c = lbrace then
            match skipWs rest with
            | c2 :: r =>
                if c2 = rbrace then some (.obj [], r)
                else (parseMembers fuel (c2 :: r)).map (fun p => (JValue.obj p.1, p.2))
            | [] => none
          else none

/-- Parse the elements of a non-empty JSON array, up to and including the
closing bracket. -/
def parseElems : Nat → List Char → Option (List JValue × List Char)
  | 0, _ => none
  | fuel + 1, cs => do
      let (v, r) ← parseVal fuel cs
      match skipWs r with
      | ',' :: r2 => (parseElems fuel r2).map (fun p => (v :: p.1, p.2))
      | ']' :: r2 => some ([v], r2)
      | _ => none

/-- Parse the members of a non-empty JSON object, up to and including the
closing brace. -/
def parseMembers : Nat → List Char → Option (List (String × JValue) × List Char)
  | 0, _ => none
  | fuel + 1, cs =>
      match skipWs cs with
      | '"' :: r => do
          let (k, r1) ← parseStringGo (fuel + 1) r
          match skipWs r1 with
          | ':' :: r2 => do
              let (v, r3) ← parseVal fuel r2
              match skipWs r3 with
              | ',' :: r4 => (parseMembers fuel r4).map (fun p => ((k, v) :: p.1, p.2))
              | c :: r4 =>
                  if c = rbrace then some ([(k, v)], r4) else none
              | [] => none
          | _ => none
      | _ => none

end

/-- Parse a whole string as one JSON document (only whitespace may follow). -/
def parseJson (s : String) : Option JValue :=
  match parseVal (s.length + 1) s.data with
  | some (v, rest) => if skipWs rest = [] then some v else none
  | none => none

/-- Is this JSON value an object? -/
def JValue.isObj : JValue → Bool
  | .obj _ => true
  | _ => false

/-- Does the string parse as a JSON array of exactly `n` objects? -/
def parsesAsArrayOfObjects (s : String) (n : Nat) : Bool :=
  match parseJson s with
  | some (.arr xs) => xs.length = n && xs.all JValue.isObj
  | _ => false

/-- Does the string parse as JSON at all? -/
def isValidJson (s : String) : Bool := (parseJson s).isSome

/-! Section: Key-presence lemmas for the record builder -/

theorem applyOptionals_cons_none (base : Rec) (k : String)
    (rest : List (String × Option JValue)) :
    applyOptionals base ((k, none) :: rest) = applyOptionals base rest := rfl

theorem applyOptionals_cons_some (base : Rec) (k : String) (v : JValue)
    (rest : List (String × Option JValue)) :
    applyOptionals base ((k, some v) :: rest) = applyOptionals (setKey base k v) rest := rfl

theorem mem_recKeys_setKey (d : Rec) (k : String) (v : JValue) (k' : String) :
    k' ∈ recKeys (setKey d k v) ↔ k' ∈ recKeys d ∨ k' = k := by
  unfold setKey recKeys
  by_cases h : d.any (fun p => p.1 = k) = true
  · rw [if_pos h]
    have hmap : (d.map (fun p => if p.1 = k then (k, v) else p)).map Prod.fst = d.map Prod.fst := by
      rw [List.map_map]
      refine List.map_congr_left (fun p _ => ?_)
      by_cases hp : p.1 = k
      · simp [hp]
      · simp [hp]
    rw [hmap]
    have hk : k ∈ d.map Prod.fst := by
      rcases List.any_eq_true.mp h with ⟨p, hp, hpk⟩
      exact List.mem_map.mpr ⟨p, hp, of_decide_eq_true hpk⟩
    constructor
    · exact Or.inl
    · rintro (h' | rfl)
      · exact h'
      · exact hk
  · rw [if_neg h, List.map_append]
    simp

theorem mem_recKeys_applyOptionals (opts : List (String × Option JValue)) (base : Rec)
    (k : String) :
    k ∈ recKeys (applyOptionals base opts) ↔
      k ∈ recKeys base ∨ ∃ v, (k, some v) ∈ opts := by
  induction opts generalizing base with
  | nil => simp [applyOptionals]
  | cons kv rest ih =>
    rcases kv with ⟨k1, v1⟩
    cases v1 with
    | none =>
      rw [applyOptionals_cons_none, ih]
      constructor
      · rintro (h | ⟨v, hv⟩)
        · exact Or.inl h
        · exact Or.inr ⟨v, List.mem_cons_of_mem _ hv⟩
      · rintro (h | ⟨v, hv⟩)
        · exact Or.inl h
        · rcases List.mem_cons.mp hv with heq | hv'
          · simp at heq
          · exact Or.inr ⟨v, hv'⟩
    | some v1 =>
      rw [applyOptionals_cons_some, ih, mem_recKeys_setKey]
      constructor
      · rintro ((h | rfl) | ⟨v, hv⟩)
        · exact Or.inl h
        · exact Or.inr ⟨v1, List.mem_cons_self _ _⟩
        · exact Or.inr ⟨v, List.mem_cons_of_mem _ hv⟩
      · rintro (h | ⟨v, hv⟩)
        · exact Or.inl (Or.inl h)
        · rcases List.mem_cons.mp hv with heq | hv'
          · rcases Prod.mk.injEq .. ▸ heq with ⟨rfl, -⟩
            exact Or.inl (Or.inr rfl)
          · exact Or.inr ⟨v, hv'⟩

theorem nodup_keys_unique {α β : Type} {l : List (α × β)} (hn : (l.map Prod.fst).Nodup)
    {a : α} {b c : β} (h1 : (a, b) ∈ l) (h2 : (a, c) ∈ l) : b = c := by
  induction l with
  | nil => cases h1
  | cons hd tl ih =>
    rw [List.map_cons, List.nodup_cons] at hn
    rcases List.mem_cons.mp h1 with h1' | h1' <;> rcases List.mem_cons.mp h2 with h2' | h2'
    · injection h1'.trans h2'.symm
    · exact absurd (List.mem_map.mpr ⟨(a, c), h2', by rw [← h1']⟩) hn.1
    · exact absurd (List.mem_map.mpr ⟨(a, b), h1', by rw [← h2']⟩) hn.1
    · exact ih hn.2 h1' h2'

theorem optional_keys_nodup (c : OpCall) : ((optionalsOf c).map Prod.fst).Nodup := by
  cases c <;> simp only [optionalsOf, List.map_cons, List.map_nil] <;> decide

theorem optional_none_keys (c : OpCall) :
    ∀ kv ∈ optionalsOf c, kv.2 = none →
      kv.1 = "name" ∨ kv.1 = "cat" ∨ kv.1 = "args" ∨ kv.1 = "id" ∨ kv.1 = "scope" := by
  cases c <;> (intro kv hkv hnone; fin_cases hkv <;> simp_all)

theorem mem_keys_of_some (c : OpCall) (now pid tid : Int) (k : String) (v : JValue)
    (hk : (k, some v) ∈ optionalsOf c) : k ∈ recKeys (emitRecord c now pid tid) := by
  rw [emitRecord, buildRecord, mem_recKeys_applyOptionals]
  exact Or.inr ⟨v, hk⟩

theorem not_mem_keys_of_none (c : OpCall) (now pid tid : Int) (k : String)
    (hk : (k, none) ∈ optionalsOf c) : k ∉ recKeys (emitRecord c now pid tid) := by
  rw [emitRecord, buildRecord, mem_recKeys_applyOptionals]
  rintro (hbase | ⟨v, hv⟩)
  · have h5 := optional_none_keys c (k, none) hk rfl
    simp only [recKeys, List.map_cons, List.map_nil, List.mem_cons,
      List.not_mem_nil, or_false] at hbase
    rcases hbase with rfl | rfl | rfl | rfl <;> simp_all
  · exact Option.noConfusion (nodup_keys_unique (optional_keys_nodup c) hk hv)

theorem clock_sync_args_always (now pid tid : Int) (name sid : Option String)
    (its : Option Int) :
    rlookup (emitRecord (.clock_sync name sid its) now pid tid) "args" =
      some (.obj [("sync_id", orNull (optStr sid)), ("issue_ts", orNull (optNum its))]) := by
  cases name <;> rfl

/-- C1 (amended): for every public emission operation, a top-level optional
parameter supplied by the caller (including falsy values such as `0` or the
empty string) always appears as a key of the committed record, and an
absent one never does — but `clock_sync` is an exception for its `args`
sub-fields: its `args` dict is built unconditionally, so the keys
`sync_id` and `issue_ts` are always present inside `args`, with value
`null` when the caller did not supply them. -/
theorem C1_amended :
    (∀ (c : OpCall) (now pid tid : Int),
      (∀ k v, (k, some v) ∈ optionalsOf c → k ∈ recKeys (emitRecord c now pid tid)) ∧
      (∀ k, (k, none) ∈ optionalsOf c → k ∉ recKeys (emitRecord c now pid tid))) ∧
    (∀ (now pid tid : Int) (name sid : Option String) (its : Option Int),
      rlookup (emitRecord (.clock_sync name sid its) now pid tid) "args" =
        some (.obj [("sync_id", orNull (optStr sid)), ("issue_ts", orNull (optNum its))])) :=
  ⟨fun c now pid tid =>
    ⟨mem_keys_of_some c now pid tid, not_mem_keys_of_none c now pid tid⟩,
   clock_sync_args_always⟩

/-- C1 (counterexample): `clock_sync()` called with no `sync_id` and no
`issue_ts` commits a record whose `args` field carries the keys `sync_id`
and `issue_ts` with value `null`, and serializes them as literal `null`s
— the claimed invariant fails for `clock_sync`'s `args` sub-fields. -/
theorem C1_counterexample :
    rlookup (emitRecord (.clock_sync none none none) 0 1 2) "args" =
      some (.obj [("sync_id", JValue.null), ("issue_ts", JValue.null)]) ∧
    dumpRecord (emitRecord (.clock_sync none none none) 0 1 2) =
      some "\x7b\"ph\": \"c\", \"ts\": 0, \"pid\": 1, \"tid\": 2, \"args\": \x7b\"sync_id\": null, \"issue_ts\": null\x7d\x7d" :=
  ⟨rfl, rfl⟩

/-- C1 (witness): instantiating the amended theorem on `counter` called
with the empty string as `name` and `0` as `args`: the falsy values still
appear, the unsupplied `cat` does not. -/
theorem C1_witness :
    "name" ∈ recKeys (emitRecord (.counter (some "") (some (.num 0)) none) 0 1 2) ∧
    "cat" ∉ recKeys (emitRecord (.counter (some "") (some (.num 0)) none) 0 1 2) :=
  ⟨(C1_amended.1 (.counter (some "") (some (.num 0)) none) 0 1 2).1 "name" (.str "")
      (by simp [optionalsOf, optStr]),
   (C1_amended.1 (.counter (some "") (some (.num 0)) none) 0 1 2).2 "cat"
      (by simp [optionalsOf, optStr])⟩

/-! Section: Depth tracker lemmas and `clear` -/

theorem dset_cons_ne {q p : Int} (hq : q ≠ p) (m n : Int) (t : List (Int × Int)) :
    dset ((q, m) :: t) p n = (q, m) :: dset t p n := by
  unfold dset
  have hd : (((q, m) :: t).any fun x => x.1 = p) = (t.any fun x => x.1 = p) := by
    simp [List.any_cons, hq]
  rw [hd]
  by_cases h : (t.any fun x => x.1 = p) = true
  · rw [if_pos h, if_pos h, List.map_cons]
    simp [hq]
  · rw [if_neg h, if_neg h, List.cons_append]

theorem dlookup_cons (q p m : Int) (t : List (Int × Int)) :
    dlookup ((q, m) :: t) p = if q = p then some m else dlookup t p := rfl

theorem dlookup_dset_self (d : List (Int × Int)) (p n : Int) :
    dlookup (dset d p n) p = some n := by
  induction d with
  | nil => simp [dset, dlookup]
  | cons qm t ih =>
    rcases qm with ⟨q, m⟩
    by_cases hq : q = p
    · subst hq
      have hany : (((q, m) :: t).any fun x => x.1 = q) = true := by simp
      unfold dset
      rw [if_pos hany, List.map_cons]
      rw [if_pos (show (q, m).1 = q from rfl)]
      rw [dlookup_cons, if_pos rfl]
    · rw [dset_cons_ne hq]
      rw [dlookup_cons, if_neg hq]
      exact ih

/-- The synthetic end record emitted during `clear`: only the four base
fields, phase `"E"`. -/
def synthEnd (env : Env) : Rec :=
  [("ph", .str "E"), ("ts", .num env.now), ("pid", .num env.pid), ("tid", .num env.tid)]

theorem synthEnd_eq (env : Env) :
    emitRecord (.end' none none none) env.now env.pid env.tid = synthEnd env := rfl

/-- Evaluating `end()` on a buffered tracer whose pid has a depth entry: the record is
appended and the counter decremented, with no check of its sign. -/
theorem end_buffered (env : Env) (name : Option String) (args : Option JValue)
    (cat : Option String) (buf : List Rec) (depths : List (Int × Int)) (n : Int)
    (h : dlookup depths env.pid = some n) :
    ET.end' env name args cat { sink := .buffered buf, depths := depths } =
      (none,
       { sink := .buffered (buf ++ [emitRecord (.end' name args cat) env.now env.pid env.tid]),
         depths := dset depths env.pid (n - 1) }) := by
  unfold ET.end' emitOp logEvent
  simp only [h]
  rfl

/-- Evaluating `end()` on a buffered tracer whose pid has no depth entry: the record
is still appended, then the `-= 1` raises `KeyError`. -/
theorem end_buffered_keyError (env : Env) (name : Option String) (args : Option JValue)
    (cat : Option String) (buf : List Rec) (depths : List (Int × Int))
    (h : dlookup depths env.pid = none) :
    ET.end' env name args cat { sink := .buffered buf, depths := depths } =
      (some .keyError,
       { sink := .buffered (buf ++ [emitRecord (.end' name args cat) env.now env.pid env.tid]),
         depths := depths }) := by
  unfold ET.end' emitOp logEvent
  simp only [h]
  rfl

theorem clearGo_succ (env : Env) (fuel : Nat) (s : TracerState) :
    ET.clearGo env (fuel + 1) s =
      match dlookup s.depths env.pid with
      | some n =>
          if 0 < n then ET.clearGo env fuel (ET.end' env none none none s).2 else s
      | none => s := rfl

theorem clearGo_spec (env : Env) :
    ∀ (m : Nat) (buf : List Rec) (depths : List (Int × Int)),
      dlookup depths env.pid = some (m : Int) →
      ∃ depths',
        ET.clearGo env m { sink := .buffered buf, depths := depths } =
          { sink := .buffered (buf ++ List.replicate m (synthEnd env)), depths := depths' } ∧
        dlookup depths' env.pid = some 0 := by
  intro m
  induction m with
  | zero =>
    intro buf depths h
    exact ⟨depths, by simp [ET.clearGo], by exact_mod_cast h⟩
  | succ k ih =>
    intro buf depths h
    have h' : dlookup depths env.pid = some ((k : Int) + 1) := by
      rw [h]
      norm_num
    have hstep :
        ET.clearGo env (k + 1) { sink := .buffered buf, depths := depths } =
          ET.clearGo env k
            { sink := .buffered (buf ++ [synthEnd env]),
              depths := dset depths env.pid (((k : Int) + 1) - 1) } := by
      rw [clearGo_succ]
      simp only [h']
      rw [if_pos (show (0 : Int) < (k : Int) + 1 by positivity)]
      rw [end_buffered env none none none buf depths _ h', synthEnd_eq]
    have hlk : dlookup (dset depths env.pid (((k : Int) + 1) - 1)) env.pid = some (k : Int) := by
      rw [dlookup_dset_self]
      norm_num
    rcases ih (buf ++ [synthEnd env]) _ hlk with ⟨depths', h1, h2⟩
    refine ⟨depths', ?_, h2⟩
    rw [hstep, h1, List.append_assoc]
    rfl

theorem clear_spec (env : Env) (buf : List Rec) (depths : List (Int × Int)) (n : Int)
    (hlook : dlookup depths env.pid = some n) (hpos : 0 < n) :
    ∃ depths',
      ET.clear env { sink := .buffered buf, depths := depths } =
        { sink := .buffered (buf ++ List.replicate n.toNat (synthEnd env)), depths := depths' } ∧
      dlookup depths' env.pid = some 0 := by
  unfold ET.clear
  rw [hlook]
  exact clearGo_spec env n.toNat buf depths (by rw [hlook, Int.toNat_of_nonneg hpos.le])

theorem clear_noop (env : Env) (s : TracerState) (h : dlookup s.depths env.pid = none) :
    ET.clear env s = s := by
  unfold ET.clear
  rw [h]

/-- A concrete environment for the scenario claims. -/
def envA : Env := { now := 5, pid := 1, tid := 2 }

/-- The buffer of a buffered tracer. -/
def bufferOf (s : TracerState) : Option (List Rec) :=
  match s.sink with
  | .buffered b => some b
  | .streaming _ => none

/-- A fresh buffered tracer after `begin("a"); begin("b"); begin("c")`. -/
def c2state : TracerState :=
  (ET.begin' envA "c" none none
    (ET.begin' envA "b" none none
      (ET.begin' envA "a" none none ET.newBuffered).2).2).2

/-- C2: `clear()` with a positive depth entry `n` for the current pid
appends exactly `n` synthetic end records (phase `"E"`, only the base
fields) and leaves the depth entry present with value exactly `0`;
`clear()` with no entry for the current pid is a no-op; and
`begin("a"); begin("b"); begin("c")` followed by `clear()` on a fresh
buffered tracer yields a buffer of length 6. -/
theorem C2_clear :
    (∀ (env : Env) (buf : List Rec) (depths : List (Int × Int)) (n : Int),
      dlookup depths env.pid = some n → 0 < n →
      ∃ depths',
        ET.clear env { sink := .buffered buf, depths := depths } =
          { sink := .buffered (buf ++ List.replicate n.toNat (synthEnd env)),
            depths := depths' } ∧
        dlookup depths' env.pid = some 0) ∧
    (∀ (env : Env) (s : TracerState), dlookup s.depths env.pid = none →
      ET.clear env s = s) ∧
    (bufferOf (ET.clear envA c2state)).map List.length = some 6 :=
  ⟨clear_spec, clear_noop, by rfl⟩

/-- C2 (witness): `clear()` at depth 2 on pid 1 appends two synthetic end
records and leaves the entry at 0. -/
theorem C2_witness :
    ∃ depths',
      ET.clear envA { sink := .buffered [], depths := [(1, 2)] } =
        { sink := .buffered ([] ++ List.replicate (2 : Int).toNat (synthEnd envA)),
          depths := depths' } ∧
      dlookup depths' envA.pid = some 0 :=
  C2_clear.1 envA [] [(1, 2)] 2 rfl (by norm_num)

/-! Section: Serialization failures (emission and flush) -/

theorem flush_buffered (buf : List Rec) (depths : List (Int × Int)) (openOk : Bool)
    (target : String) :
    ET.flush { sink := .buffered buf, depths := depths } openOk target =
      match dumpRecList buf with
      | none => (some .serialization, { sink := .buffered buf, depths := depths }, target)
      | some encoded =>
          if openOk then
            (none, { sink := .buffered [], depths := depths },
             target ++ ((if target ≠ "" then encoded.drop 1 else encoded).dropRight 1 ++ ",\n"))
          else (some .resource, { sink := .buffered [], depths := depths }, target) := by
  cases h : dumpRecList buf with
  | none => simp [ET.flush, h]
  | some enc => simp [ET.flush, h]

/-- C3 (counterexample): in buffered mode, an emission call whose `args`
contains an unserializable value does not fail at all — the raw record is
appended to the buffer and no error is raised, refuting the claim for the
buffered sink mode. -/
theorem C3_counterexample :
    emitOp envA (.counter (some "c") (some .unser) none) ET.newBuffered =
      (none,
       { sink := .buffered [emitRecord (.counter (some "c") (some .unser) none) 5 1 2],
         depths := [] }) := rfl

/-- C3 (amended): in streaming mode a record that fails to serialize makes
the emission call raise SerializationError synchronously with the file left
untouched (the record is fully serialized before any bytes are appended),
and a serializable record is appended in the same call; in buffered mode
the emission call never raises — the raw record is appended — and the
serialization failure instead surfaces from `flush`, which raises
SerializationError and leaves the buffer and target file untouched. -/
theorem C3_amended :
    (∀ (env : Env) (c : OpCall) (file : String) (depths : List (Int × Int)),
      dumpRecord (emitRecord c env.now env.pid env.tid) = none →
      emitOp env c { sink := .streaming file, depths := depths } =
        (some .serialization, { sink := .streaming file, depths := depths })) ∧
    (∀ (env : Env) (c : OpCall) (file : String) (depths : List (Int × Int)) (enc : String),
      dumpRecord (emitRecord c env.now env.pid env.tid) = some enc →
      emitOp env c { sink := .streaming file, depths := depths } =
        (none, { sink := .streaming (file ++ enc ++ ",\n"), depths := depths })) ∧
    (∀ (env : Env) (c : OpCall) (buf : List Rec) (depths : List (Int × Int)),
      emitOp env c { sink := .buffered buf, depths := depths } =
        (none,
         { sink := .buffered (buf ++ [emitRecord c env.now env.pid env.tid]),
           depths := depths })) ∧
    (∀ (buf : List Rec) (depths : List (Int × Int)) (openOk : Bool) (target : String),
      dumpRecList buf = none →
      ET.flush { sink := .buffered buf, depths := depths } openOk target =
        (some .serialization, { sink := .buffered buf, depths := depths }, target)) := by
  refine ⟨?_, ?_, ?_, ?_⟩
  · intro env c file depths h
    unfold emitRecord at h
    unfold emitOp logEvent streamCommit
    simp only [h]
  · intro env c file depths enc h
    unfold emitRecord at h
    unfold emitOp logEvent streamCommit
    simp only [h]
  · intro env c buf depths
    unfold emitOp logEvent
    rfl
  · intro buf depths openOk target h
    rw [flush_buffered]
    simp only [h]

/-- C3 (witness): a streaming emission with unserializable `args` raises
SerializationError leaving the file untouched; flushing a buffer holding
an unserializable record raises SerializationError leaving buffer and
target untouched. -/
theorem C3_witness :
    emitOp envA (.counter (some "c") (some .unser) none)
        { sink := .streaming "[\n", depths := [] } =
      (some .serialization, { sink := .streaming "[\n", depths := [] }) ∧
    ET.flush { sink := .buffered [[("a", JValue.unser)]], depths := [] } true "" =
      (some .serialization,
       { sink := .buffered [[("a", JValue.unser)]], depths := [] }, "") :=
  ⟨C3_amended.1 envA (.counter (some "c") (some .unser) none) "[\n" [] rfl,
   C3_amended.2.2.2 [[("a", JValue.unser)]] [] true "" rfl⟩

/-- C6: `flush()` on a tracer constructed in streaming mode always raises
(the spec's UsageError) and writes nothing: the tracer state and the
target file are returned unchanged. -/
theorem C6_flush_streaming (file : String) (depths : List (Int × Int)) (openOk : Bool)
    (target : String) :
    ET.flush { sink := .streaming file, depths := depths } openOk target =
      (some .usage, { sink := .streaming file, depths := depths }, target) := rfl

/-- C7: `complete(ts=1000, dur=50, name="x")` commits exactly one record:
phase `"X"`, `ts` equal to the caller-supplied start value `1000`
regardless of the wall clock `now`, `dur = 50`, `name = "x"`, `pid`/`tid`
from the identity source, and no `cat` or `args` keys. -/
theorem C7_complete (now pid tid : Int) :
    ET.complete { now := now, pid := pid, tid := tid } 1000 50 (some "x") none none
        ET.newBuffered =
      (none,
       { sink := .buffered
           [[("ph", .str "X"), ("ts", .num 1000), ("pid", .num pid), ("tid", .num tid),
             ("dur", .num 50), ("name", .str "x")]],
         depths := [] }) := rfl

/-- C8 (counterexample): `end()` with no prior `begin()` in the process
commits its record but then raises `KeyError` (from
`self.depths[getpid()] -= 1` on a missing key) instead of returning
normally. -/
theorem C8_counterexample :
    ET.end' envA none none none ET.newBuffered =
      (some .keyError,
       { sink := .buffered [[("ph", .str "E"), ("ts", .num 5), ("pid", .num 1), ("tid", .num 2)]],
         depths := [] }) := rfl

/-- C8 (amended): when the current pid has a depth entry, `end()`
decrements it by one with no defensive check — the count may go negative
(e.g. from an entry at 0) — and succeeds; but when the pid has no entry at
all, `end()` still commits its record and then raises `KeyError` rather
than returning normally. -/
theorem C8_amended :
    (∀ (env : Env) (name : Option String) (args : Option JValue) (cat : Option String)
       (buf : List Rec) (depths : List (Int × Int)) (n : Int),
      dlookup depths env.pid = some n →
      ET.end' env name args cat { sink := .buffered buf, depths := depths } =
        (none,
         { sink := .buffered (buf ++ [emitRecord (.end' name args cat) env.now env.pid env.tid]),
           depths := dset depths env.pid (n - 1) })) ∧
    (∀ (env : Env) (name : Option String) (args : Option JValue) (cat : Option String)
       (buf : List Rec) (depths : List (Int × Int)),
      dlookup depths env.pid = none →
      ET.end' env name args cat { sink := .buffered buf, depths := depths } =
        (some .keyError,
         { sink := .buffered (buf ++ [emitRecord (.end' name args cat) env.now env.pid env.tid]),
           depths := depths })) :=
  ⟨end_buffered, end_buffered_keyError⟩

/-- C8 (witness): an `end()` at depth 0 drives the counter to `-1` without
error, and an `end()` with no entry for the pid raises `KeyError`. -/
theorem C8_witness :
    ET.end' envA none none none { sink := .buffered [], depths := [(1, 0)] } =
      (none,
       { sink := .buffered ([] ++ [emitRecord (.end' none none none) envA.now envA.pid envA.tid]),
         depths := dset [(1, 0)] envA.pid (0 - 1) }) ∧
    ET.end' envA none none none { sink := .buffered [], depths := [(2, 3)] } =
      (some .keyError,
       { sink := .buffered ([] ++ [emitRecord (.end' none none none) envA.now envA.pid envA.tid]),
         depths := [(2, 3)] }) :=
  ⟨C8_amended.1 envA none none none [] [(1, 0)] 0 rfl,
   C8_amended.2 envA none none none [] [(2, 3)] rfl⟩

/-- C10: `flush` serializes the buffer before swapping in the new empty
one and before any I/O: if serialization fails, the buffer (and target)
are unchanged; if serialization succeeds but opening/writing the target
fails, the drained records are already discarded — the buffer is left
empty while the target is unchanged. -/
theorem C10_flush_order :
    (∀ (buf : List Rec) (depths : List (Int × Int)) (openOk : Bool) (target : String),
      dumpRecList buf = none →
      ET.flush { sink := .buffered buf, depths := depths } openOk target =
        (some .serialization, { sink := .buffered buf, depths := depths }, target)) ∧
    (∀ (buf : List Rec) (depths : List (Int × Int)) (target : String) (enc : String),
      dumpRecList buf = some enc →
      ET.flush { sink := .buffered buf, depths := depths } false target =
        (some .resource, { sink := .buffered [], depths := depths }, target)) := by
  constructor
  · intro buf depths openOk target h
    rw [flush_buffered]
    simp only [h]
  · intro buf depths target enc h
    rw [flush_buffered]
    simp only [h]
    rfl

/-- C10 (witness): a buffer holding an unserializable record survives a
failed flush unchanged; a serializable buffer is lost when the target
cannot be opened. -/
theorem C10_witness :
    ET.flush { sink := .buffered [[("a", JValue.unser)]], depths := [] } true "x" =
      (some .serialization,
       { sink := .buffered [[("a", JValue.unser)]], depths := [] }, "x") ∧
    ET.flush { sink := .buffered [], depths := [] } false "t" =
      (some .resource, { sink := .buffered [], depths := [] }, "t") :=
  ⟨C10_flush_order.1 [[("a", JValue.unser)]] [] true "x" rfl,
   C10_flush_order.2 [] [] "t" "[]" rfl⟩

/-! Section: Streaming and flushing scenarios (C4, C5, C9) -/

theorem flush_some (buf : List Rec) (depths : List (Int × Int)) (target enc : String)
    (h : dumpRecList buf = some enc) :
    ET.flush { sink := .buffered buf, depths := depths } true target =
      (none, { sink := .buffered [], depths := depths },
       target ++ ((if target ≠ "" then enc.drop 1 else enc).dropRight 1 ++ ",\n")) := by
  rw [flush_buffered]
  simp [h]

/-- One `complete` record of the first scenario tracer. -/
def c4rec1 : Rec := emitRecord (.complete 1000 1 (some "item 1") none none) 99 7 9

/-- One `complete` record of the second scenario tracer. -/
def c4rec2 : Rec := emitRecord (.complete 2000 1 (some "item 2") none none) 99 7 9

/-- The four atomic file operations of the two-streaming-tracers scenario:
`0`/`1` are the constructors of tracers 1 and 2, `2`/`3` their single
commits. -/
def c4apply : Nat → String → String
  | 0, f => streamInit f
  | 1, f => streamInit f
  | 2, f => (streamCommit c4rec1 f).2
  | 3, f => (streamCommit c4rec2 f).2
  | _ + 4, f => f

/-- Every interleaving of the two tracers' operations in which each
tracer's constructor precedes its own commit. -/
def c4orders : List (List Nat) :=
  [[0, 1, 2, 3], [0, 1, 3, 2], [0, 2, 1, 3], [1, 0, 2, 3], [1, 0, 3, 2], [1, 3, 0, 2]]

/-- Run a scenario interleaving against an initially empty file. -/
def c4run (ord : List Nat) : String := ord.foldl (fun f i => c4apply i f) ""

/-- C4: constructing a streaming tracer on an empty file writes exactly
`"[\n"`; construction on a non-empty file writes nothing; each commit
appends the record's JSON encoding followed by `",\n"`; and in every
interleaving of two streaming tracers on the same new path, each emitting
one complete event, the finalized file parses as a JSON array of exactly
2 objects. -/
theorem C4_streaming :
    streamInit "" = "[\n" ∧
    (∀ f : String, f ≠ "" → streamInit f = f) ∧
    (∀ (r : Rec) (f enc : String), dumpRecord r = some enc →
      streamCommit r f = (none, f ++ enc ++ ",\n")) ∧
    (∀ ord ∈ c4orders, parsesAsArrayOfObjects (finalize (c4run ord)) 2 = true) := by
  refine ⟨rfl, ?_, ?_, ?_⟩
  · intro f hf
    unfold streamInit
    rw [if_neg hf]
  · intro r f enc h
    unfold streamCommit
    rw [h]
  · set_option maxRecDepth 40000 in decide

/-- C4 (witness): instantiating the three conditional parts on concrete
inputs. -/
theorem C4_witness :
    streamInit "ab" = "ab" ∧
    streamCommit [("ph", JValue.str "B")] "[\n" =
      (none, "[\n" ++ "\x7b\"ph\": \"B\"\x7d" ++ ",\n") ∧
    parsesAsArrayOfObjects (finalize (c4run [0, 1, 2, 3])) 2 = true :=
  ⟨C4_streaming.2.1 "ab" (by decide),
   C4_streaming.2.2.1 [("ph", JValue.str "B")] "[\n" _ rfl,
   C4_streaming.2.2.2 [0, 1, 2, 3] (by decide)⟩

/-- The buffer of the first flushing-scenario tracer. -/
def c5buf1 : List Rec := [emitRecord (.complete 1000 1 (some "flushed 1") none none) 99 7 9]

/-- The buffer of the second flushing-scenario tracer. -/
def c5buf2 : List Rec := [emitRecord (.complete 2000 1 (some "flushed 2") none none) 99 7 9]

/-- The target file after flushing tracer 1 then tracer 2 into a new path. -/
def c5fileA : String :=
  (ET.flush { sink := .buffered c5buf2, depths := [] } true
    ((ET.flush { sink := .buffered c5buf1, depths := [] } true "").2.2)).2.2

/-- The target file after flushing tracer 2 then tracer 1 into a new path. -/
def c5fileB : String :=
  (ET.flush { sink := .buffered c5buf1, depths := [] } true
    ((ET.flush { sink := .buffered c5buf2, depths := [] } true "").2.2)).2.2

/-- C5: a successful `flush` drains the whole buffer (leaving it empty)
and appends the serialized array under the open-array convention — written
verbatim with the closing bracket replaced by `",\n"` on an empty target,
with the leading `"["` additionally stripped on a non-empty target — and
two buffered tracers flushed once each (one event each) into the same new
path yield a file that finalizes to a JSON array of exactly 2 objects in
either flush order. -/
theorem C5_flush :
    (∀ (buf : List Rec) (depths : List (Int × Int)) (target enc : String),
      dumpRecList buf = some enc →
      ET.flush { sink := .buffered buf, depths := depths } true target =
        (none, { sink := .buffered [], depths := depths },
         target ++ ((if target ≠ "" then enc.drop 1 else enc).dropRight 1 ++ ",\n"))) ∧
    parsesAsArrayOfObjects (finalize c5fileA) 2 = true ∧
    parsesAsArrayOfObjects (finalize c5fileB) 2 = true := by
  refine ⟨flush_some, ?_, ?_⟩ <;> set_option maxRecDepth 40000 in decide

/-- C5 (witness): flushing a one-record buffer into an empty target. -/
theorem C5_witness :
    ET.flush { sink := .buffered c5buf1, depths := [] } true "" =
      (none, { sink := .buffered [], depths := [] },
       "" ++ ((if ("" : String) ≠ "" then ((dumpRecList c5buf1).getD "").drop 1
               else (dumpRecList c5buf1).getD "").dropRight 1 ++ ",\n")) :=
  C5_flush.1 c5buf1 [] "" ((dumpRecList c5buf1).getD "") rfl

/-- A streaming file holding exactly one committed record. -/
def c9oneRec : String := (streamCommit c4rec1 (streamInit "")).2

/-- C9 (counterexample): flushing an empty buffer into a non-empty target
consisting of just the array-opening token `"[\n"` writes `",\n"`, and the
resulting file `"[\n,\n"` still finalizes to `"[\n\n]"` — a valid JSON
array (of zero objects) — refuting the claim that the result never
finalizes to a valid JSON array when the target is non-empty. -/
theorem C9_counterexample :
    ET.flush { sink := .buffered [], depths := [] } true "[\n" =
      (none, { sink := .buffered [], depths := [] }, "[\n,\n") ∧
    isValidJson (finalize "[\n,\n") = true ∧
    parsesAsArrayOfObjects (finalize "[\n,\n") 0 = true :=
  ⟨rfl, by decide, by decide⟩

/-- C9 (amended): flushing an empty buffer still writes bytes — `"[,\n"`
into an empty target and `",\n"` appended to a non-empty one; when the
non-empty target already holds a committed record the result no longer
finalizes to valid JSON, but when it is only the array-opening token
`"[\n"` the finalized file is still a valid (empty) JSON array. -/
theorem C9_amended :
    (ET.flush { sink := .buffered [], depths := [] } true "" =
      (none, { sink := .buffered [], depths := [] }, "[,\n")) ∧
    (∀ (depths : List (Int × Int)) (target : String), target ≠ "" →
      ET.flush { sink := .buffered [], depths := depths } true target =
        (none, { sink := .buffered [], depths := depths }, target ++ ",\n")) ∧
    isValidJson (finalize (c9oneRec ++ ",\n")) = false ∧
    parsesAsArrayOfObjects (finalize ("[\n" ++ ",\n")) 0 = true := by
  refine ⟨rfl, ?_, ?_, ?_⟩
  · intro depths target ht
    rw [flush_some [] depths target "[]" rfl, if_pos ht]
    rfl
  · set_option maxRecDepth 40000 in decide
  · set_option maxRecDepth 40000 in decide

/-- C9 (witness): the non-empty-target equation at a concrete target. -/
theorem C9_witness :
    ET.flush { sink := .buffered [], depths := [] } true "[\n" =
      (none, { sink := .buffered [], depths := [] }, "[\n" ++ ",\n") :=
  C9_amended.2.1 [] "[\n" (by decide)
